import Mathlib

/-!
Shallow embedding of the MERN blog server's authentication, access-control
and error-normalization subsystem, together with the Post controller's
ownership and update logic and the Post slug derivation.

Sources embedded:
- src/server/src/utils/auth.js (generateToken, verifyToken, comparePassword)
- src/server/src/middleware/auth.js (protect)
- src/server/src/controllers/postsController.js (updatePost, deletePost)
- the global error handler middleware (errorHandler)
- the Post model slug hook (the model file is absent from the source tree;
  its behaviour is modelled from the specification, see deriveSlug)

External libraries (jsonwebtoken, bcryptjs, mongoose) are not part of the
repository; where their behaviour decides an outcome it is modelled
abstractly, with a doc comment saying so.
-/

namespace MernSpec

/-- Decoded token payload as built in src/server/src/utils/auth.js:
jwt.sign takes the object with fields id = user._id and email = user.email.
Either field may be undefined in JS, hence Option. -/
structure Claims where
  id : Option String
  email : Option String
deriving Repr, DecidableEq

/-- Modelled from the spec: a token of the external jsonwebtoken library
(the library is not repository code). A token is either structurally
malformed, or a signed pair of payload, signing secret and expiry time. -/
inductive Token where
  | malformed (raw : String)
  | signed (payload : Claims) (secret : String) (exp : Nat)
deriving Repr, DecidableEq

/-- Modelled from the spec: jsonwebtoken verification. It fails for a
structurally malformed token, for a token signed with a different secret,
and for a token whose expiry is strictly before the verification time;
otherwise it returns the embedded payload. The error value carries the
library's error name (JsonWebTokenError or TokenExpiredError), which is
what the repository's error handler inspects. -/
def jwtVerify (t : Token) (secret : String) (now : Nat) : Except String Claims :=
  match t with
  | .malformed _ => .error "JsonWebTokenError"
  | .signed payload s exp =>
    if s ≠ secret then .error "JsonWebTokenError"
    else if exp < now then .error "TokenExpiredError"
    else .ok payload

/-- verifyToken from src/server/src/utils/auth.js lines 22-28: a try/catch
around jwt.verify that replaces every failure by the one uniform error
with message Invalid token. -/
def verifyToken (t : Token) (secret : String) (now : Nat) : Except String Claims :=
  match jwtVerify t secret now with
  | .ok c => .ok c
  | .error _ => .error "Invalid token"

/-- The user argument of generateToken: a JS object whose _id and email
fields may each be undefined. A null or undefined user is the none of the
Option wrapping at the use site. -/
structure UserObj where
  _id : Option String
  email : Option String
deriving Repr, DecidableEq

/-- generateToken from src/server/src/utils/auth.js lines 9-15: signs the
object with fields id = user._id and email = user.email, with expiry now
plus the configured time to live. The source performs no validation of the
user: only a null or undefined user faults, with a TypeError raised by the
property access user._id; every object is signed as is. -/
def generateToken (secret : String) (ttl : Nat) (now : Nat)
    (user : Option UserObj) : Except String Token :=
  match user with
  | none => .error "TypeError: cannot read _id of null"
  | some u => .ok (.signed ⟨u._id, u.email⟩ secret (now + ttl))

/-- Modelled from the spec: compare of the external bcryptjs library. It
rejects with an Illegal-arguments error when the hash argument is not a
string, and otherwise resolves to whether the plaintext matches the hash;
the cryptographic match itself is abstracted as a predicate argument. -/
def bcryptCompare (matchFn : String → String → Bool)
    (password : String) (hash : Option String) : Except String Bool :=
  match hash with
  | none => .error "Illegal arguments: string, undefined"
  | some h => .ok (matchFn password h)

/-- comparePassword from src/server/src/utils/auth.js lines 46-48:
delegates directly to bcrypt.compare, with no guard on the hash
argument. -/
def comparePassword (matchFn : String → String → Bool)
    (password : String) (hash : Option String) : Except String Bool :=
  bcryptCompare matchFn password hash

/-- Outcome of one invocation of an Express middleware: either a response
was sent (status code and error message of the JSON body), or next() was
called with req.user set to the resolved user. -/
inductive AuthResult (U : Type) where
  | response (status : Nat) (error : String)
  | nextWith (user : U)
deriving Repr, DecidableEq

/-- The test of JS String.prototype.startsWith on character lists (first
the string, then the pattern). -/
def startsWithChars : List Char → List Char → Bool
  | _, [] => true
  | [], _ :: _ => false
  | c :: cs, p :: ps => c = p && startsWithChars cs ps

/-- JS String.prototype.split with a one-character separator, on character
lists: adjacent separators yield empty components, as in JS. -/
def splitChars (sep : Char) : List Char → List (List Char)
  | [] => [[]]
  | c :: cs =>
    let rest := splitChars sep cs
    if c = sep then [] :: rest
    else
      match rest with
      | [] => [[c]]
      | r :: rs => (c :: r) :: rs

/-- Token extraction of the protect middleware,
src/server/src/middleware/auth.js lines 12-14: a header value that starts
with the six characters Bearer passes the scheme check (a prefix test, not
an exact match), and the token is the second space-separated component of
the header, which may be absent. -/
def bearerToken (header : Option String) : Option String :=
  match header with
  | none => none
  | some h =>
    if startsWithChars h.toList "Bearer".toList then
      Option.map String.mk (splitChars ' ' h.toList)[1]?
    else none

/-- The tail of protect after a non-falsy token was extracted
(src/server/src/middleware/auth.js lines 21-31): verify the token, look
the user up by the id claim excluding the password field, 401 User not
found when the lookup returns nothing. The enclosing try/catch maps any
throw from verification or lookup to the uniform 401. -/
def protectVerified {U : Type} (t : String)
    (verify : String → Except String Claims)
    (findById : Option String → Except String (Option U)) : AuthResult U :=
  match verify t with
  | .error _ => .response 401 "Not authorized to access this route"
  | .ok decoded =>
    match findById decoded.id with
    | .error _ => .response 401 "Not authorized to access this route"
    | .ok none => .response 401 "User not found"
    | .ok (some u) => .nextWith u

/-- protect from src/server/src/middleware/auth.js lines 7-35: extract the
bearer token; when it is undefined or the empty string (JS falsy) answer
401 without touching verification or the store; otherwise run the verified
phase under the try/catch. -/
def protect {U : Type} (header : Option String)
    (verify : String → Except String Claims)
    (findById : Option String → Except String (Option U)) : AuthResult U :=
  match bearerToken header with
  | none => .response 401 "Not authorized to access this route"
  | some t =>
    if t = "" then .response 401 "Not authorized to access this route"
    else protectVerified t verify findById

/-- A stored Post document, with the fields the controllers touch. -/
structure PostRec where
  id : String
  author : String
  title : String
  content : String
  category : Option String
  tags : List String
  published : Bool
  slug : String
deriving Repr, DecidableEq

/-- The authenticated requester attached to req.user by protect. -/
structure ReqUser where
  id : String
  role : String
deriving Repr, DecidableEq

/-- The request body of PUT /posts/:id as the controller sees it. The
controller destructures only title, content, category, tags and published;
the body may also carry author or slug keys, which stand here as fields
that the embedding shows are never read. A none field is an absent
(undefined) key, stripped from the update by the store layer. -/
structure UpdateBody where
  title : Option String
  content : Option String
  category : Option String
  tags : Option (List String)
  published : Option Bool
  author : Option String
  slug : Option String
deriving Repr, DecidableEq

/-- Outcome of one controller invocation: a JSON response carrying a post,
a success acknowledgment, an error body, or next(error) into the error
handler chain. -/
inductive CtrlResult where
  | okPost (status : Nat) (post : PostRec)
  | okMsg (status : Nat) (success : Bool) (message : String)
  | err (status : Nat) (error : String)
  | nextErr (e : String)
deriving Repr, DecidableEq

/-- The update document applied by findByIdAndUpdate in updatePost,
src/server/src/controllers/postsController.js lines 106-110: exactly the
five destructured fields title, content, category, tags, published are
written; an undefined field is stripped from the update, leaving the
stored value; every other field of the document is untouched. -/
def applyUpdate (p : PostRec) (b : UpdateBody) : PostRec :=
  { p with
    title := b.title.getD p.title
    content := b.content.getD p.content
    category := b.category.orElse fun _ => p.category
    tags := b.tags.getD p.tags
    published := b.published.getD p.published }

/-- updatePost from src/server/src/controllers/postsController.js lines
85-116. validationErrors is the result of validationResult(req); lookup is
the outcome of Post.findById (an error is a throw caught by the try/catch,
which forwards to next); updateFault is a store fault during
findByIdAndUpdate, if any. The ownership check rejects with 403 exactly
when the requester is neither the author nor an admin. -/
def updatePost (validationErrors : List String)
    (lookup : Except String (Option PostRec)) (updateFault : Option String)
    (user : ReqUser) (body : UpdateBody) : CtrlResult :=
  if ¬ validationErrors.isEmpty then .err 400 "Validation failed"
  else
    match lookup with
    | .error e => .nextErr e
    | .ok none => .err 404 "Post not found"
    | .ok (some post) =>
      if post.author ≠ user.id ∧ user.role ≠ "admin" then
        .err 403 "Not authorized to update this post"
      else
        match updateFault with
        | some e => .nextErr e
        | none => .okPost 200 (applyUpdate post body)

/-- deletePost from src/server/src/controllers/postsController.js lines
122-141: no validation step; the same ownership check as updatePost, then
deleteOne and a success acknowledgment. -/
def deletePost (lookup : Except String (Option PostRec))
    (deleteFault : Option String) (user : ReqUser) : CtrlResult :=
  match lookup with
  | .error e => .nextErr e
  | .ok none => .err 404 "Post not found"
  | .ok (some post) =>
    if post.author ≠ user.id ∧ user.role ≠ "admin" then
      .err 403 "Not authorized to delete this post"
    else
      match deleteFault with
      | some e => .nextErr e
      | none => .okMsg 200 true "Post deleted"

/-- The details field of an error response body: absent, one string, or
the list of per-field messages. -/
inductive ErrDetails where
  | omitted
  | str (s : String)
  | list (l : List String)
deriving Repr, DecidableEq

/-- A JS error value as the error handler inspects it: err.name, err.code,
the keys of err.keyPattern in order, the messages of err.errors in order,
err.message (the empty string standing for a falsy message), err.statusCode
and err.stack. -/
structure JsError where
  name : Option String := none
  code : Option Nat := none
  keyPattern : List String := []
  errors : List String := []
  message : String := ""
  statusCode : Option Nat := none
  stack : String := ""
deriving Repr, DecidableEq

/-- The normalized error response: status code, error message, optional
details, and the stack trace when included. -/
structure ErrResponse where
  status : Nat
  error : String
  details : ErrDetails
  stack : Option String
deriving Repr, DecidableEq

/-- The declared status code of the default branch: err.statusCode || 500
(a missing or zero status code is falsy in JS and yields 500). -/
def defaultStatus (e : JsError) : Nat :=
  match e.statusCode with
  | some s => if s = 0 then 500 else s
  | none => 500

/-- errorHandler, the global error-normalization middleware (the last
middleware in the chain). mode is process.env.NODE_ENV. Classification in
source order: CastError, duplicate key code 11000 (field = first key of
keyPattern; absent keys interpolate as the JS string undefined),
ValidationError, JsonWebTokenError, TokenExpiredError, then the default
branch with err.statusCode || 500, err.message || Server Error, and the
stack spread into the body only in development mode. -/
def errorHandler (mode : String) (e : JsError) : ErrResponse :=
  if e.name = some "CastError" then
    ⟨400, "Invalid ID format", .str e.message, none⟩
  else if e.code = some 11000 then
    ⟨400, "Duplicate field value",
      .str (e.keyPattern.headD "undefined" ++ " already exists"), none⟩
  else if e.name = some "ValidationError" then
    ⟨400, "Validation error", .list e.errors, none⟩
  else if e.name = some "JsonWebTokenError" then
    ⟨401, "Invalid token", .str e.message, none⟩
  else if e.name = some "TokenExpiredError" then
    ⟨401, "Token expired", .str e.message, none⟩
  else
    ⟨defaultStatus e, if e.message = "" then "Server Error" else e.message,
      .omitted, if mode = "development" then some e.stack else none⟩

/-- Whether an error reaches the default branch of errorHandler: none of
the five shape tests matches. -/
def defaultBranch (e : JsError) : Prop :=
  e.name ≠ some "CastError" ∧ e.code ≠ some 11000 ∧
  e.name ≠ some "ValidationError" ∧ e.name ≠ some "JsonWebTokenError" ∧
  e.name ≠ some "TokenExpiredError"

instance (e : JsError) : Decidable (defaultBranch e) := by
  unfold defaultBranch; infer_instance

/-- Modelled from the spec: the Post model's pre-save slug derivation (the
model file is absent from the source tree; only its tests are present).
Worker on the character list: every run of non-alphanumeric characters
collapses to a single hyphen; the Boolean records whether a run is open. -/
def slugChars : List Char → Bool → List Char
  | [], _ => []
  | c :: rest, inRun =>
    if c.isAlphanum then c :: slugChars rest false
    else if inRun then slugChars rest true
    else '-' :: slugChars rest true

/-- Modelled from the spec: the slug derived from a Post title at creation
time is the title lowercased with every run of non-alphanumeric characters
collapsed to a single hyphen. -/
def deriveSlug (title : String) : String :=
  String.mk (slugChars (title.toList.map Char.toLower) false)

/-! ## Helper lemmas -/

/-- Every outcome of verifyToken is either the one uniform error or a
success carrying a payload. -/
theorem verifyToken_shape (t : Token) (secret : String) (now : Nat) :
    verifyToken t secret now = Except.error "Invalid token" ∨
    ∃ c, verifyToken t secret now = Except.ok c := by
  unfold verifyToken
  cases jwtVerify t secret now with
  | ok c => exact Or.inr ⟨c, rfl⟩
  | error e => exact Or.inl rfl

/-- Every character emitted by slugChars is alphanumeric or a hyphen. -/
theorem slugChars_mem (l : List Char) : ∀ (b : Bool), ∀ c ∈ slugChars l b,
    c.isAlphanum = true ∨ c = '-' := by
  induction l with
  | nil => intro b c hc; simp [slugChars] at hc
  | cons x xs ih =>
    intro b c hc
    by_cases hx : x.isAlphanum
    · simp only [slugChars, if_pos hx] at hc
      rcases List.mem_cons.mp hc with hc | hc
      · exact Or.inl (hc ▸ hx)
      · exact ih false c hc
    · simp only [slugChars, if_neg hx] at hc
      cases b with
      | true => exact ih true c (by simpa using hc)
      | false =>
        rcases List.mem_cons.mp (by simpa using hc) with hc | hc
        · exact Or.inr hc
        · exact ih true c hc

/-- Inside an open run, the next emitted character is never a hyphen. -/
theorem slugChars_head_true (l : List Char) :
    ∀ c, (slugChars l true).head? = some c → c.isAlphanum = true := by
  induction l with
  | nil => intro c hc; simp [slugChars] at hc
  | cons x xs ih =>
    intro c hc
    by_cases hx : x.isAlphanum
    · simp only [slugChars, if_pos hx] at hc
      simp at hc
      exact hc ▸ hx
    · simp only [slugChars, if_neg hx] at hc
      exact ih c (by simpa using hc)

/-- slugChars never emits two adjacent hyphens. -/
theorem slugChars_chain (l : List Char) : ∀ (b : Bool),
    (slugChars l b).Chain' (fun a c => a ≠ '-' ∨ c ≠ '-') := by
  induction l with
  | nil => intro b; simp [slugChars]
  | cons x xs ih =>
    intro b
    by_cases hx : x.isAlphanum
    · simp only [slugChars, if_pos hx]
      rw [List.chain'_cons']
      refine ⟨?_, ih false⟩
      intro y hy
      left
      intro hx'
      rw [hx'] at hx
      exact absurd hx (by decide)
    · cases b with
      | true =>
        simp only [slugChars, if_neg hx]
        simpa using ih true
      | false =>
        simp only [slugChars, if_neg hx]
        have : ('-' :: slugChars xs true).Chain' (fun a c => a ≠ '-' ∨ c ≠ '-') := by
          rw [List.chain'_cons']
          refine ⟨?_, ih true⟩
          intro y hy
          right
          intro hy'
          rw [hy'] at hy
          exact absurd (slugChars_head_true xs '-' hy) (by decide)
        simpa using this

/-- slugChars keeps exactly the alphanumeric characters of its input, in
order. -/
theorem slugChars_filter (l : List Char) : ∀ (b : Bool),
    (slugChars l b).filter (fun c => c.isAlphanum) =
      l.filter (fun c => c.isAlphanum) := by
  induction l with
  | nil => intro b; simp [slugChars]
  | cons x xs ih =>
    intro b
    by_cases hx : x.isAlphanum
    · simp [slugChars, hx, List.filter_cons, ih false]
    · cases b with
      | true => simp [slugChars, hx, List.filter_cons, ih true]
      | false => simp [slugChars, hx, List.filter_cons, ih true]

/-! ## Claim theorems -/

/-- C5: verifyToken fails with the single uniform error value for all
three failure causes — a structurally malformed token, a token signed
with a different secret, and a token whose expiry is strictly before the
verification time — so the error discloses nothing about the cause (any
two failing tokens produce identical results); every other token yields
the embedded claims. -/
theorem verifyToken_uniform_error (secret secret' : String) (now exp : Nat)
    (p : Claims) (raw : String) :
    (verifyToken (Token.malformed raw) secret now = Except.error "Invalid token") ∧
    (secret' ≠ secret →
      verifyToken (Token.signed p secret' exp) secret now = Except.error "Invalid token") ∧
    (exp < now →
      verifyToken (Token.signed p secret exp) secret now = Except.error "Invalid token") ∧
    (now ≤ exp →
      verifyToken (Token.signed p secret exp) secret now = Except.ok p) ∧
    (∀ t₁ t₂ : Token,
      (∀ c, verifyToken t₁ secret now ≠ Except.ok c) →
      (∀ c, verifyToken t₂ secret now ≠ Except.ok c) →
      verifyToken t₁ secret now = verifyToken t₂ secret now) := by
  refine ⟨rfl, ?_, ?_, ?_, ?_⟩
  · intro hs
    simp [verifyToken, jwtVerify, hs]
  · intro hexp
    simp [verifyToken, jwtVerify, hexp]
  · intro hle
    simp [verifyToken, jwtVerify, Nat.not_lt.mpr hle]
  · intro t₁ t₂ h₁ h₂
    rcases verifyToken_shape t₁ secret now with e₁ | ⟨c, hc⟩
    · rcases verifyToken_shape t₂ secret now with e₂ | ⟨c, hc⟩
      · rw [e₁, e₂]
      · exact absurd hc (h₂ c)
    · exact absurd hc (h₁ c)

/-- C5 witness: an expired token and a wrong-secret token both give the
uniform error, and a live well-signed token returns its claims. -/
theorem verifyToken_uniform_error_witness :
    verifyToken (Token.signed ⟨some "u1", some "a@b.c"⟩ "other" 999) "secret" 10 =
      Except.error "Invalid token" ∧
    verifyToken (Token.signed ⟨some "u1", some "a@b.c"⟩ "secret" 5) "secret" 10 =
      Except.error "Invalid token" ∧
    verifyToken (Token.signed ⟨some "u1", some "a@b.c"⟩ "secret" 99) "secret" 10 =
      Except.ok ⟨some "u1", some "a@b.c"⟩ :=
  ⟨(verifyToken_uniform_error "secret" "other" 10 999 ⟨some "u1", some "a@b.c"⟩ "").2.1
      (by decide),
    (verifyToken_uniform_error "secret" "secret" 10 5 ⟨some "u1", some "a@b.c"⟩ "").2.2.1
      (by decide),
    (verifyToken_uniform_error "secret" "secret" 10 99 ⟨some "u1", some "a@b.c"⟩ "").2.2.2.1
      (by decide)⟩

/-- C6 counterexample: the claim requires token generation to fail for a
user whose id and email are empty, but generateToken signs such a user
without any validation and succeeds. -/
theorem generateToken_no_subject_validation_cex :
    generateToken "secret" 86400 0 (some ⟨some "", some ""⟩) =
      Except.ok (Token.signed ⟨some "", some ""⟩ "secret" 86400) := rfl

/-- C6 amended: generateToken performs no subject validation: it fails
(with a TypeError from the property access user._id, not an InvalidSubject
error) exactly when the user is null or undefined, and succeeds for every
user object — including objects with missing or empty id or email —
embedding whatever id and email the object carries. -/
theorem generateToken_null_only_failure (secret : String) (ttl now : Nat) :
    (generateToken secret ttl now none =
      Except.error "TypeError: cannot read _id of null") ∧
    (∀ u : UserObj, generateToken secret ttl now (some u) =
      Except.ok (Token.signed ⟨u._id, u.email⟩ secret (now + ttl))) :=
  ⟨rfl, fun _ => rfl⟩

/-- C7 counterexample: the claim requires comparePassword to treat a
missing or undefined hash as no-match, but the source passes the hash
straight to bcrypt.compare, which rejects non-string arguments, so the
call errors instead of returning false. -/
theorem comparePassword_undefined_hash_cex :
    comparePassword (fun p h => p == h) "password123" none =
      Except.error "Illegal arguments: string, undefined" := rfl

/-- C7 amended: for every string hash argument comparePassword returns a
boolean and never throws — in particular it returns false for every
non-matching input including the empty-string plaintext — but a missing
or undefined hash is handed to bcrypt.compare unguarded, which rejects
with an Illegal-arguments error rather than treating it as no-match. -/
theorem comparePassword_string_hash_total (matchFn : String → String → Bool)
    (password : String) :
    (∀ h : String, comparePassword matchFn password (some h) =
      Except.ok (matchFn password h)) ∧
    (∀ h : String, matchFn password h = false →
      comparePassword matchFn password (some h) = Except.ok false) ∧
    (comparePassword matchFn password none =
      Except.error "Illegal arguments: string, undefined") :=
  ⟨fun _ => rfl, fun h hm => by simp [comparePassword, bcryptCompare, hm], rfl⟩

/-- C7 witness: the empty-string plaintext against a non-matching stored
hash compares to false without an error. -/
theorem comparePassword_string_hash_total_witness :
    comparePassword (fun p h => p == h) "" (some "stored-hash") = Except.ok false :=
  (comparePassword_string_hash_total (fun p h => p == h) "").2.1 "stored-hash" (by decide)

/-- C1: protect answers 401 with body error Not authorized to access this
route, and never calls the next handler, whenever the Authorization header
is absent, fails the bearer-scheme check, or carries no non-empty token;
likewise when token verification fails for any reason; and when the user
lookup after a verified claim throws any error the result is that same
401, never a 500 — the middleware fails closed. -/
theorem protect_fail_closed {U : Type} (verify : String → Except String Claims)
    (findById : Option String → Except String (Option U)) :
    (protect none verify findById =
      AuthResult.response 401 "Not authorized to access this route") ∧
    (∀ h : String, startsWithChars h.toList "Bearer".toList = false →
      protect (some h) verify findById =
        AuthResult.response 401 "Not authorized to access this route") ∧
    (∀ header, bearerToken header = none ∨ bearerToken header = some "" →
      protect header verify findById =
        AuthResult.response 401 "Not authorized to access this route") ∧
    (∀ header t e, bearerToken header = some t → verify t = Except.error e →
      protect header verify findById =
        AuthResult.response 401 "Not authorized to access this route") ∧
    (∀ header t c e, bearerToken header = some t → verify t = Except.ok c →
      findById c.id = Except.error e →
      protect header verify findById =
        AuthResult.response 401 "Not authorized to access this route") := by
  refine ⟨rfl, ?_, ?_, ?_, ?_⟩
  · intro h hsw
    simp at hsw
    simp [protect, bearerToken, hsw]
  · intro header hbt
    rcases hbt with hbt | hbt <;> simp [protect, hbt]
  · intro header t e hbt hv
    by_cases ht : t = ""
    · simp [protect, hbt, ht]
    · simp [protect, hbt, ht, protectVerified, hv]
  · intro header t c e hbt hv hf
    by_cases ht : t = ""
    · simp [protect, hbt, ht]
    · simp [protect, hbt, ht, protectVerified, hv, hf]

/-- C1 witness: a malformed-scheme header, a failing verifier, and a
throwing user lookup each produce the 401 with the uniform body. -/
theorem protect_fail_closed_witness :
    protect (some "Token abc")
        (fun _ => Except.ok (⟨some "u1", none⟩ : Claims))
        (fun _ => (Except.ok (some (⟨"u1", "user"⟩ : ReqUser)))) =
      AuthResult.response 401 "Not authorized to access this route" ∧
    protect (some "Bearer bad")
        (fun _ => (Except.error "Invalid token" : Except String Claims))
        (fun _ => (Except.ok (some (⟨"u1", "user"⟩ : ReqUser)))) =
      AuthResult.response 401 "Not authorized to access this route" ∧
    protect (some "Bearer good")
        (fun _ => Except.ok (⟨some "u1", none⟩ : Claims))
        (fun _ => (Except.error "db connection lost" :
          Except String (Option ReqUser))) =
      AuthResult.response 401 "Not authorized to access this route" :=
  ⟨(protect_fail_closed _ _).2.1 "Token abc" (by decide),
    (protect_fail_closed _ _).2.2.2.1 (some "Bearer bad") "bad" "Invalid token"
      (by decide) rfl,
    (protect_fail_closed _ _).2.2.2.2 (some "Bearer good") "good"
      ⟨some "u1", none⟩ "db connection lost" (by decide) rfl rfl⟩

/-- C9: the bearer-scheme test of protect is a prefix test, not an exact
match: for every header value starting with the six characters Bearer the
scheme check passes (a following space is not required) and the token is
the second space-separated component, on which the verified phase then
runs; when that component is absent or empty, or the header does not start
with Bearer, protect answers 401 and its result does not depend on the
verifier or the user lookup at all — neither is consulted. -/
theorem protect_bearer_scheme (U : Type) :
    (∀ (verify : String → Except String Claims)
        (findById : Option String → Except String (Option U))
        (h : String) (ts : List Char),
      startsWithChars h.toList "Bearer".toList = true →
      (splitChars ' ' h.toList)[1]? = some ts → String.mk ts ≠ "" →
      protect (some h) verify findById =
        protectVerified (String.mk ts) verify findById) ∧
    (∀ (verify₁ verify₂ : String → Except String Claims)
        (findById₁ findById₂ : Option String → Except String (Option U))
        (h : String),
      startsWithChars h.toList "Bearer".toList = false ∨
        (splitChars ' ' h.toList)[1]? = none ∨
        (splitChars ' ' h.toList)[1]? = some [] →
      protect (some h) verify₁ findById₁ =
        AuthResult.response 401 "Not authorized to access this route" ∧
      protect (some h) verify₁ findById₁ = protect (some h) verify₂ findById₂) := by
  constructor
  · intro verify findById h ts hsw hsplit hts
    simp at hsw
    simp only [String.toList] at hsplit
    simp [protect, bearerToken, hsw, hsplit, hts]
  · intro verify₁ verify₂ findById₁ findById₂ h hcase
    rcases hcase with hsw | hnone | hempty
    · simp at hsw
      constructor <;> simp [protect, bearerToken, hsw]
    · simp only [String.toList] at hnone
      constructor <;> simp [protect, bearerToken, hnone]
    · simp only [String.toList] at hempty
      by_cases hsw : startsWithChars h.toList "Bearer".toList
      · simp at hsw
        constructor <;>
          simp [protect, bearerToken, hsw, hempty, show String.mk [] = "" from rfl]
      · simp at hsw
        constructor <;> simp [protect, bearerToken, hsw]

/-- C9 witness: a header glued to the Bearer prefix without a space still
passes the scheme check and its second component is verified; the header
consisting of the bare word Bearer is rejected 401 under any verifier and
lookup, with the same result for both. -/
theorem protect_bearer_scheme_witness :
    protect (some "BearerX tok")
        (fun s => Except.ok (⟨some s, none⟩ : Claims))
        (fun _ => (Except.ok none : Except String (Option ReqUser))) =
      protectVerified "tok" (fun s => Except.ok (⟨some s, none⟩ : Claims))
        (fun _ => (Except.ok none : Except String (Option ReqUser))) ∧
    protect (some "Bearer")
        (fun s => Except.ok (⟨some s, none⟩ : Claims))
        (fun _ => (Except.ok none : Except String (Option ReqUser))) =
      AuthResult.response 401 "Not authorized to access this route" ∧
    protect (some "Bearer")
        (fun s => Except.ok (⟨some s, none⟩ : Claims))
        (fun _ => (Except.ok none : Except String (Option ReqUser))) =
      protect (some "Bearer")
        (fun _ => (Except.error "boom" : Except String Claims))
        (fun _ => (Except.error "down" : Except String (Option ReqUser))) :=
  ⟨(protect_bearer_scheme ReqUser).1 _ _ "BearerX tok" "tok".toList
      (by decide) (by decide) (by decide),
    ((protect_bearer_scheme ReqUser).2
      (fun s => Except.ok (⟨some s, none⟩ : Claims))
      (fun _ => (Except.error "boom" : Except String Claims))
      (fun _ => (Except.ok none : Except String (Option ReqUser)))
      (fun _ => (Except.error "down" : Except String (Option ReqUser)))
      "Bearer" (Or.inr (Or.inl (by decide)))).1,
    ((protect_bearer_scheme ReqUser).2
      (fun s => Except.ok (⟨some s, none⟩ : Claims))
      (fun _ => (Except.error "boom" : Except String Claims))
      (fun _ => (Except.ok none : Except String (Option ReqUser)))
      (fun _ => (Except.error "down" : Except String (Option ReqUser)))
      "Bearer" (Or.inr (Or.inl (by decide)))).2⟩

/-- C2: for every existing post and every authenticated requester, with
request validation passing and no store fault, updatePost and deletePost
answer 403 exactly when the requester's id differs from the post's author
and the requester's role is not admin; when the requester is the author or
any admin, both operations proceed and answer 200. -/
theorem post_mutation_ownership (post : PostRec) (user : ReqUser)
    (body : UpdateBody) :
    (updatePost [] (Except.ok (some post)) none user body =
        CtrlResult.err 403 "Not authorized to update this post" ↔
      post.author ≠ user.id ∧ user.role ≠ "admin") ∧
    (deletePost (Except.ok (some post)) none user =
        CtrlResult.err 403 "Not authorized to delete this post" ↔
      post.author ≠ user.id ∧ user.role ≠ "admin") ∧
    (post.author = user.id ∨ user.role = "admin" →
      updatePost [] (Except.ok (some post)) none user body =
        CtrlResult.okPost 200 (applyUpdate post body) ∧
      deletePost (Except.ok (some post)) none user =
        CtrlResult.okMsg 200 true "Post deleted") := by
  by_cases hc : post.author ≠ user.id ∧ user.role ≠ "admin"
  · refine ⟨?_, ?_, ?_⟩
    · simp [updatePost, hc]
    · simp [deletePost, hc]
    · intro hok
      rcases hc with ⟨ha, hr⟩
      rcases hok with hok | hok
      · exact absurd hok ha
      · exact absurd hok hr
  · refine ⟨?_, ?_, ?_⟩
    · simp [updatePost, hc]
    · simp [deletePost, hc]
    · intro _
      exact ⟨by simp [updatePost, hc], by simp [deletePost, hc]⟩

/-- C2 witness: a non-author non-admin requester gets 403 from both
operations; the author and an admin get 200. -/
theorem post_mutation_ownership_witness :
    (updatePost [] (Except.ok (some ⟨"p1", "u1", "T", "C", none, [], false, "t"⟩))
        none ⟨"u2", "user"⟩ ⟨none, none, none, none, none, none, none⟩ =
      CtrlResult.err 403 "Not authorized to update this post") ∧
    (updatePost [] (Except.ok (some ⟨"p1", "u1", "T", "C", none, [], false, "t"⟩))
        none ⟨"u1", "user"⟩ ⟨none, none, none, none, none, none, none⟩ =
      CtrlResult.okPost 200 ⟨"p1", "u1", "T", "C", none, [], false, "t"⟩) ∧
    (deletePost (Except.ok (some ⟨"p1", "u1", "T", "C", none, [], false, "t"⟩))
        none ⟨"u3", "admin"⟩ =
      CtrlResult.okMsg 200 true "Post deleted") :=
  ⟨(post_mutation_ownership ⟨"p1", "u1", "T", "C", none, [], false, "t"⟩
      ⟨"u2", "user"⟩ ⟨none, none, none, none, none, none, none⟩).1.mpr
      (by simp),
    ((post_mutation_ownership ⟨"p1", "u1", "T", "C", none, [], false, "t"⟩
      ⟨"u1", "user"⟩ ⟨none, none, none, none, none, none, none⟩).2.2
      (Or.inl rfl)).1,
    ((post_mutation_ownership ⟨"p1", "u1", "T", "C", none, [], false, "t"⟩
      ⟨"u3", "admin"⟩ ⟨none, none, none, none, none, none, none⟩).2.2
      (Or.inr rfl)).2⟩

/-- C10: an update writes only title, content, category, tags and
published. Whenever updatePost answers with a post, that post's id, author
and slug are those of the looked-up stored post, whatever the request body
carries — so ownership cannot be transferred through PUT /posts/:id. -/
theorem updatePost_frame (validationErrors : List String)
    (lookup : Except String (Option PostRec)) (fault : Option String)
    (user : ReqUser) (body : UpdateBody) (post p' : PostRec) (s : Nat) :
    lookup = Except.ok (some post) →
    updatePost validationErrors lookup fault user body = CtrlResult.okPost s p' →
    p'.id = post.id ∧ p'.author = post.author ∧ p'.slug = post.slug ∧ s = 200 := by
  intro hl hu
  subst hl
  unfold updatePost at hu
  by_cases hv : validationErrors.isEmpty
  · simp [hv] at hu
    by_cases hc : post.author ≠ user.id ∧ user.role ≠ "admin"
    · simp [hc] at hu
    · simp [hc] at hu
      match fault, hu with
      | none, hu =>
        simp at hu
        obtain ⟨hs, hp⟩ := hu
        subst hs
        rw [← hp]
        exact ⟨rfl, rfl, rfl, rfl⟩
  · simp [hv] at hu

/-- C10 witness: even an admin update whose body tries to set author and
slug leaves id, author and slug unchanged. -/
theorem updatePost_frame_witness :
    (applyUpdate ⟨"p1", "u1", "T", "C", none, [], false, "t"⟩
        ⟨some "New", none, none, none, none, some "attacker", some "evil"⟩).id =
      "p1" ∧
    (applyUpdate ⟨"p1", "u1", "T", "C", none, [], false, "t"⟩
        ⟨some "New", none, none, none, none, some "attacker", some "evil"⟩).author =
      "u1" ∧
    (applyUpdate ⟨"p1", "u1", "T", "C", none, [], false, "t"⟩
        ⟨some "New", none, none, none, none, some "attacker", some "evil"⟩).slug =
      "t" ∧ (200 : Nat) = 200 :=
  updatePost_frame []
    (Except.ok (some ⟨"p1", "u1", "T", "C", none, [], false, "t"⟩)) none
    ⟨"u9", "admin"⟩ ⟨some "New", none, none, none, none, some "attacker", some "evil"⟩
    ⟨"p1", "u1", "T", "C", none, [], false, "t"⟩
    (applyUpdate ⟨"p1", "u1", "T", "C", none, [], false, "t"⟩
      ⟨some "New", none, none, none, none, some "attacker", some "evil"⟩)
    200 rfl rfl

/-- C3: errorHandler classifies by the fixed shape tests in source order,
first match winning: CastError gives 400 Invalid ID format with the
original message; else duplicate-key code 11000 gives 400 Duplicate field
value with the conflicting field followed by already exists; else
ValidationError gives 400 with the list of per-field messages; else
JsonWebTokenError gives 401 Invalid token; else TokenExpiredError gives
401 Token expired; otherwise the declared status code (default 500) is
used. -/
theorem errorHandler_precedence (mode : String) (e : JsError) :
    (e.name = some "CastError" →
      errorHandler mode e = ⟨400, "Invalid ID format", .str e.message, none⟩) ∧
    (e.name ≠ some "CastError" → e.code = some 11000 →
      errorHandler mode e =
        ⟨400, "Duplicate field value",
          .str (e.keyPattern.headD "undefined" ++ " already exists"), none⟩) ∧
    (e.name = some "ValidationError" → e.code ≠ some 11000 →
      errorHandler mode e = ⟨400, "Validation error", .list e.errors, none⟩) ∧
    (e.name = some "JsonWebTokenError" → e.code ≠ some 11000 →
      errorHandler mode e = ⟨401, "Invalid token", .str e.message, none⟩) ∧
    (e.name = some "TokenExpiredError" → e.code ≠ some 11000 →
      errorHandler mode e = ⟨401, "Token expired", .str e.message, none⟩) ∧
    (defaultBranch e →
      (errorHandler mode e).status = defaultStatus e ∧
      (errorHandler mode e).error =
        (if e.message = "" then "Server Error" else e.message) ∧
      (errorHandler mode e).details = .omitted) := by
  refine ⟨?_, ?_, ?_, ?_, ?_, ?_⟩
  · intro hn
    simp [errorHandler, hn]
  · intro hn hc
    simp [errorHandler, hn, hc]
  · intro hn hc
    simp [errorHandler, hn, hc]
  · intro hn hc
    simp [errorHandler, hn, hc]
  · intro hn hc
    simp [errorHandler, hn, hc]
  · intro hd
    obtain ⟨h1, h2, h3, h4, h5⟩ := hd
    simp [errorHandler, h1, h2, h3, h4, h5]

/-- C3 witness: one concrete error of each shape, including the precedence
of the duplicate-key test over a ValidationError name, and a default-branch
error falling back to status 500 and message Server Error. -/
theorem errorHandler_precedence_witness :
    errorHandler "production" { name := some "CastError", message := "Cast to ObjectId failed" } =
      ⟨400, "Invalid ID format", .str "Cast to ObjectId failed", none⟩ ∧
    errorHandler "production"
        { name := some "MongoServerError", code := some 11000, keyPattern := ["email"] } =
      ⟨400, "Duplicate field value", .str "email already exists", none⟩ ∧
    errorHandler "production"
        { name := some "ValidationError", code := some 11000, keyPattern := ["slug"] } =
      ⟨400, "Duplicate field value", .str "slug already exists", none⟩ ∧
    errorHandler "production"
        { name := some "ValidationError", errors := ["title is required", "content too short"] } =
      ⟨400, "Validation error", .list ["title is required", "content too short"], none⟩ ∧
    errorHandler "production" { name := some "JsonWebTokenError", message := "jwt malformed" } =
      ⟨401, "Invalid token", .str "jwt malformed", none⟩ ∧
    errorHandler "production" { name := some "TokenExpiredError", message := "jwt expired" } =
      ⟨401, "Token expired", .str "jwt expired", none⟩ ∧
    (errorHandler "production" { }).status = 500 ∧
    (errorHandler "production" { }).error = "Server Error" :=
  ⟨(errorHandler_precedence "production" _).1 rfl,
    (errorHandler_precedence "production" _).2.1 (by decide) rfl,
    (errorHandler_precedence "production" _).2.1 (by decide) rfl,
    (errorHandler_precedence "production" _).2.2.1 rfl (by decide),
    (errorHandler_precedence "production" _).2.2.2.1 rfl (by decide),
    (errorHandler_precedence "production" _).2.2.2.2.1 rfl (by decide),
    ((errorHandler_precedence "production" _).2.2.2.2.2 (by decide)).1,
    ((errorHandler_precedence "production" _).2.2.2.2.2 (by decide)).2.1⟩

/-- C4: for an error reaching the default branch, the response carries a
stack trace exactly when the runtime mode is development; in any other
mode the stack field is absent and the whole response is identical for any
two errors that differ only in their stack — the stack never reaches the
client outside development. -/
theorem errorHandler_stack_dev_only (mode : String) (e : JsError)
    (s₁ s₂ : String) :
    (defaultBranch e →
      ((errorHandler mode e).stack.isSome = true ↔ mode = "development")) ∧
    (mode ≠ "development" →
      errorHandler mode { e with stack := s₁ } =
        errorHandler mode { e with stack := s₂ }) := by
  constructor
  · intro hd
    obtain ⟨h1, h2, h3, h4, h5⟩ := hd
    by_cases hm : mode = "development"
    · simp [errorHandler, h1, h2, h3, h4, h5, hm]
    · simp [errorHandler, h1, h2, h3, h4, h5, hm]
  · intro hm
    unfold errorHandler
    simp only [hm, if_false]
    by_cases h1 : e.name = some "CastError" <;>
      by_cases h2 : e.code = some 11000 <;>
        by_cases h3 : e.name = some "ValidationError" <;>
          by_cases h4 : e.name = some "JsonWebTokenError" <;>
            by_cases h5 : e.name = some "TokenExpiredError" <;>
              simp [defaultStatus, h1, h2, h3, h4, h5, hm]

/-- C4 witness: in production mode a default-branch error's response has
no stack, and two errors differing only in their stack get the same
response. -/
theorem errorHandler_stack_dev_only_witness :
    ((errorHandler "production" { message := "boom", stack := "secret trace" }).stack.isSome =
        true ↔ "production" = "development") ∧
    errorHandler "production" { message := "boom", stack := "secret trace" } =
      errorHandler "production" { message := "boom", stack := "other trace" } :=
  ⟨(errorHandler_stack_dev_only "production"
      { message := "boom", stack := "secret trace" } "" "").1 (by decide),
    (errorHandler_stack_dev_only "production" { message := "boom" }
      "secret trace" "other trace").2 (by decide)⟩

/-- C8: the slug derived from a Post title is the title lowercased with
every run of non-alphanumeric characters collapsed to a single hyphen: the
test titles from the repository yield test-post-title, and in general the
derived slug consists only of alphanumeric characters and hyphens, never
contains two adjacent hyphens, and keeps exactly the alphanumeric
characters of the lowercased title in order. -/
theorem deriveSlug_spec :
    deriveSlug "Test Post! @#$ Title" = "test-post-title" ∧
    deriveSlug "Test    Post    Title" = "test-post-title" ∧
    (∀ title : String, ∀ c ∈ (deriveSlug title).toList,
      c.isAlphanum = true ∨ c = '-') ∧
    (∀ title : String,
      (deriveSlug title).toList.Chain' (fun a c => a ≠ '-' ∨ c ≠ '-')) ∧
    (∀ title : String,
      (deriveSlug title).toList.filter (fun c => c.isAlphanum) =
        (title.toList.map Char.toLower).filter (fun c => c.isAlphanum)) := by
  refine ⟨by decide, by decide, ?_, ?_, ?_⟩
  · intro title c hc
    exact slugChars_mem (title.toList.map Char.toLower) false c hc
  · intro title
    exact slugChars_chain (title.toList.map Char.toLower) false
  · intro title
    exact slugChars_filter (title.toList.map Char.toLower) false

/-- C8 witness: the special-character title collapses to test-post-title,
and a character of a derived slug is alphanumeric or a hyphen. -/
theorem deriveSlug_spec_witness :
    deriveSlug "Test Post! @#$ Title" = "test-post-title" ∧
    ('t'.isAlphanum = true ∨ 't' = '-') :=
  ⟨deriveSlug_spec.1, deriveSlug_spec.2.2.1 "Test" 't' (by decide)⟩

end MernSpec
